import Mathlib

/-!
Verification of the `flack` advisory file-locking library (src/src/lib.rs).

The library wraps the POSIX `flock` syscall: two enumerations (`LockType`,
`BlockMode`) project to `flock` flag bits, a single controller `flogic`
performs the native call and normalises its result, and the public entry
points `lock_file` / `unlock_file` compose the flag value and delegate.

The native call is modelled as an environment `FlockEnv`: a function from
(raw file descriptor, flag value) to the call's outcome, i.e. its return
value together with the platform last-error state (`errno`) that
`Error::last_os_error()` would read immediately afterwards.
-/

namespace Flack

/-- Outcome of one invocation of the native `flock` call: its return value
and the platform last-error state observed right after the call. -/
structure NativeOutcome where
  ret : Int
  lastError : Int
deriving DecidableEq, Repr

/-- The native-call environment: what `flock(fd, operation)` returns (and
leaves in `errno`) for a given raw descriptor and flag value. -/
def FlockEnv : Type := Int → Int → NativeOutcome

/-- `std::fs::File` as the code uses it: the only observation the code makes
of the handle is `as_raw_fd()`, the raw file descriptor. -/
structure File where
  raw_fd : Int
deriving DecidableEq, Repr

/-- `std::io::Error` as constructed by `Error::last_os_error()`: it wraps the
raw OS error code, uninterpreted. -/
structure IOError where
  osCode : Int
deriving DecidableEq, Repr

/-- `const LOCK_SH : i32 = 1;` -/
def LOCK_SH : Int := 1
/-- `const LOCK_EX : i32 = 2;` -/
def LOCK_EX : Int := 2
/-- `const LOCK_NB : i32 = 4;` -/
def LOCK_NB : Int := 4
/-- `const LOCK_UN : i32 = 8;` -/
def LOCK_UN : Int := 8

/-- `pub enum LockType { Exclusive, Shared }` -/
inductive LockType where
  | Exclusive
  | Shared
deriving DecidableEq, Repr, Fintype

/-- `LockType::to_flock_flag`. -/
def LockType.to_flock_flag : LockType → Int
  | .Exclusive => LOCK_EX
  | .Shared => LOCK_SH

/-- `pub enum BlockMode { Blocking, NonBlocking }` -/
inductive BlockMode where
  | Blocking
  | NonBlocking
deriving DecidableEq, Repr, Fintype

/-- `BlockMode::to_flock_flag`. -/
def BlockMode.to_flock_flag : BlockMode → Int
  | .Blocking => 0
  | .NonBlocking => LOCK_NB

/-- `fn flogic(file: &File, flags: i32) -> Result<()>`, POSIX branch:
call `flock(file.as_raw_fd(), flags)`; a negative return yields
`Err(Error::last_os_error())`, otherwise `Ok(())`. -/
def flogic (env : FlockEnv) (file : File) (flags : Int) : Except IOError Unit :=
  let o := env file.raw_fd flags
  if o.ret < 0 then .error ⟨o.lastError⟩ else .ok ()

/-- `pub fn lock_file(file, lock_type, block_mode)`:
`flogic(file, lock_type.to_flock_flag() | block_mode.to_flock_flag())`. -/
def lock_file (env : FlockEnv) (file : File) (lock_type : LockType)
    (block_mode : BlockMode) : Except IOError Unit :=
  flogic env file (Int.lor lock_type.to_flock_flag block_mode.to_flock_flag)

/-- `pub fn unlock_file(file)`: `flogic(file, LOCK_UN)`. -/
def unlock_file (env : FlockEnv) (file : File) : Except IOError Unit :=
  flogic env file LOCK_UN

/-- Result of running a Rust computation that may panic: either a value, or
a panic with the panic message. -/
inductive RunResult (α : Type) where
  | ok (a : α)
  | panicked (msg : String)
deriving DecidableEq, Repr

/-- The `#[cfg(windows)]` branch of `flogic`: its closure body begins with
`todo!()`, which panics with "not yet implemented" at run time before the
`LockFileEx` call (and before the handle is even touched) is reached. -/
def flogic_windows (_file : File) (_flags : Int) : RunResult (Except IOError Unit) :=
  .panicked "not yet implemented"

/-- A native operation on the underlying file descriptor. The alphabet
includes closing and duplicating so that "never closes or duplicates the
handle" is expressible about the traces below. -/
inductive SysAction where
  | flockCall (fd : Int) (flags : Int)
  | closeFd (fd : Int)
  | dupFd (fd : Int)
deriving DecidableEq, Repr

/-- The sequence of native descriptor operations the POSIX branch of
`flogic` performs, read off the source body: exactly one `flock` call on the
raw descriptor extracted by `as_raw_fd()`, and nothing else. -/
def flogicActions (file : File) (flags : Int) : List SysAction :=
  [.flockCall file.raw_fd flags]

/-- Descriptor operations performed by `lock_file`: those of its single
`flogic` call at the composed flag. -/
def lock_fileActions (file : File) (lock_type : LockType)
    (block_mode : BlockMode) : List SysAction :=
  flogicActions file (Int.lor lock_type.to_flock_flag block_mode.to_flock_flag)

/-- Descriptor operations performed by `unlock_file`: those of its single
`flogic` call at `LOCK_UN`. -/
def unlock_fileActions (file : File) : List SysAction :=
  flogicActions file LOCK_UN

/-! ## A model of the OS-resident advisory lock state

The kernel side of `flock` is not code of this repository; the following
definitions are modelled from the spec (§3 "Lock state", §4.3's state
machine, §8): a whole-file advisory lock is either free, held exclusively by
one holder, or held shared by a set of holders. -/

/-- Modelled from the spec: the OS-resident advisory lock state of one file
(one open-file-table entry): `Unlocked`, `ExclusiveHeld`, or `SharedHeld`. -/
inductive LockState where
  | unlocked
  | exclusive (holder : Nat)
  | shared (holders : List Nat)
deriving DecidableEq, Repr

/-- `EWOULDBLOCK`, the "resource unavailable" code a non-blocking
acquisition receives when the lock is contended. -/
def EWOULDBLOCK : Int := 11
/-- `EINVAL`, returned for an invalid operation argument. -/
def EINVAL : Int := 22
/-- `EINTR`, the failure a blocked waiter receives when a signal aborts the
wait. -/
def EINTR : Int := 4

/-- Modelled from the spec: holder `c` may take the exclusive lock iff no
other holder is present (re-acquisition by the same holder succeeds). -/
def noConflictingHolder (c : Nat) : LockState → Bool
  | .unlocked => true
  | .exclusive h => h == c
  | .shared hs => hs.all (· == c)

/-- Modelled from the spec: holder `c` may take a shared lock iff no other
holder holds the lock exclusively. -/
def noExclusiveConflict (c : Nat) : LockState → Bool
  | .unlocked => true
  | .exclusive h => h == c
  | .shared _ => true

/-- Modelled from the spec: add `c` to the shared holders. -/
def addShared (c : Nat) : LockState → LockState
  | .unlocked => .shared [c]
  | .exclusive _ => .shared [c]
  | .shared hs => .shared (c :: hs)

/-- Modelled from the spec: drop every hold of `c`; locks held by others are
unaffected. -/
def removeHolder (c : Nat) : LockState → LockState
  | .unlocked => .unlocked
  | .exclusive h => if h == c then .unlocked else .exclusive h
  | .shared hs =>
    let hs' := hs.filter (fun h => ¬ h == c)
    if hs' = [] then .unlocked else .shared hs'

/-- Modelled from the spec: one `flock(fd, flags)` call by holder `c`
against lock state `st` — the outcome (return value, last-error state) and
the successor lock state. A contended blocking acquisition suspends; since
the spec (§5) says such a wait ends only when the lock frees or an OS signal
aborts it with a failure, the single-step model reports the aborted wait
(`EINTR`); no theorem below exercises that branch. Unknown flag patterns are
rejected with `EINVAL`. -/
def flockSem (c : Nat) (st : LockState) (flags : Int) :
    NativeOutcome × LockState :=
  if flags = Int.lor LOCK_EX LOCK_NB then
    if noConflictingHolder c st then (⟨0, 0⟩, .exclusive c)
    else (⟨-1, EWOULDBLOCK⟩, st)
  else if flags = LOCK_EX then
    if noConflictingHolder c st then (⟨0, 0⟩, .exclusive c)
    else (⟨-1, EINTR⟩, st)
  else if flags = Int.lor LOCK_SH LOCK_NB then
    if noExclusiveConflict c st then (⟨0, 0⟩, addShared c st)
    else (⟨-1, EWOULDBLOCK⟩, st)
  else if flags = LOCK_SH then
    if noExclusiveConflict c st then (⟨0, 0⟩, addShared c st)
    else (⟨-1, EINTR⟩, st)
  else if flags = LOCK_UN then (⟨0, 0⟩, removeHolder c st)
  else (⟨-1, EINVAL⟩, st)

/-- The native-call environment presented by the modelled OS to holder `c`
while the lock state is `st`. -/
def osEnv (c : Nat) (st : LockState) : FlockEnv :=
  fun _fd flags => (flockSem c st flags).1

/-- The lock state after holder `c` issues `flock(_, flags)` in state
`st`. -/
def osStep (c : Nat) (st : LockState) (flags : Int) : LockState :=
  (flockSem c st flags).2

end Flack

namespace Flack

/-- **C2.** The flag projections are exactly: `Exclusive ↦ LOCK_EX = 2`,
`Shared ↦ LOCK_SH = 1`, `Blocking ↦ 0`, `NonBlocking ↦ LOCK_NB = 4`; both
projections are pure total functions over their enumerations. -/
theorem to_flock_flag_values :
    LockType.Exclusive.to_flock_flag = LOCK_EX ∧
    LockType.Shared.to_flock_flag = LOCK_SH ∧
    BlockMode.Blocking.to_flock_flag = 0 ∧
    BlockMode.NonBlocking.to_flock_flag = LOCK_NB ∧
    LOCK_EX = 2 ∧ LOCK_SH = 1 ∧ LOCK_NB = 4 := by
  refine ⟨rfl, rfl, rfl, rfl, rfl, rfl, rfl⟩

/-- Helper: `flogic` returns `.error e` exactly when the native call's
return value is negative and `e` wraps the last-error state. -/
theorem flogic_error_char (env : FlockEnv) (f : File) (flags : Int) (e : IOError) :
    flogic env f flags = .error e ↔
      (env f.raw_fd flags).ret < 0 ∧ e = ⟨(env f.raw_fd flags).lastError⟩ := by
  unfold flogic
  by_cases h : (env f.raw_fd flags).ret < 0 <;>
    simp [h, eq_comm, IOError.mk.injEq]

/-- Helper: `flogic` returns `.ok ()` exactly when the native call's return
value is zero or positive. -/
theorem flogic_ok_char (env : FlockEnv) (f : File) (flags : Int) :
    flogic env f flags = .ok () ↔ 0 ≤ (env f.raw_fd flags).ret := by
  unfold flogic
  by_cases h : (env f.raw_fd flags).ret < 0
  all_goals simp [h]
  all_goals omega

/-- **C1.** POSIX branch of the controller: `flogic` calls the native
`flock` with the raw descriptor extracted from the handle and the given
flag value; a negative return value yields a failure built from the
platform's last-error state, and a zero-or-positive return value yields
success with no value. -/
theorem flogic_posix_outcome (env : FlockEnv) (f : File) (flags : Int) :
    ((env f.raw_fd flags).ret < 0 →
      flogic env f flags = .error ⟨(env f.raw_fd flags).lastError⟩) ∧
    (0 ≤ (env f.raw_fd flags).ret → flogic env f flags = .ok ()) :=
  ⟨fun h => (flogic_error_char env f flags _).mpr ⟨h, rfl⟩,
   fun h => (flogic_ok_char env f flags).mpr h⟩

/-- Witness for `flogic_posix_outcome` at a concrete descriptor, flag and
native outcome on each side of the sign split. -/
theorem flogic_posix_outcome_witness :
    flogic (fun _ _ => ⟨-1, 11⟩ : FlockEnv) ⟨3⟩ 6 = .error ⟨11⟩ ∧
    flogic (fun _ _ => ⟨0, 0⟩ : FlockEnv) ⟨3⟩ 6 = .ok () :=
  ⟨(flogic_posix_outcome (fun _ _ => ⟨-1, 11⟩) ⟨3⟩ 6).1 (by decide),
   (flogic_posix_outcome (fun _ _ => ⟨0, 0⟩) ⟨3⟩ 6).2 (by decide)⟩

/-- **C3.** `lock_file` passes to the controller exactly the bitwise OR of
one kind-flag and one block-flag, and returns the controller's result
unchanged; concretely the composed flags are 2, 6, 1 and 5. -/
theorem lock_file_composes (env : FlockEnv) (f : File) (k : LockType)
    (m : BlockMode) :
    lock_file env f k m =
      flogic env f (Int.lor k.to_flock_flag m.to_flock_flag) ∧
    lock_file env f .Exclusive .Blocking = flogic env f 2 ∧
    lock_file env f .Exclusive .NonBlocking = flogic env f 6 ∧
    lock_file env f .Shared .Blocking = flogic env f 1 ∧
    lock_file env f .Shared .NonBlocking = flogic env f 5 :=
  ⟨rfl, congrArg (flogic env f) (by decide), congrArg (flogic env f) (by decide),
   congrArg (flogic env f) (by decide), congrArg (flogic env f) (by decide)⟩

/-- **C4.** `unlock_file` passes to the controller the fixed unlock flag
`LOCK_UN = 8` alone — a value sharing no bit with the kind flags or the
non-blocking flag — and returns the controller's result unchanged. -/
theorem unlock_file_composes (env : FlockEnv) (f : File) :
    unlock_file env f = flogic env f LOCK_UN ∧
    LOCK_UN = 8 ∧
    Int.land LOCK_UN (Int.lor (Int.lor LOCK_SH LOCK_EX) LOCK_NB) = 0 :=
  ⟨rfl, rfl, by decide⟩

/-- **C5.** Contrary to the claim that an unimplemented platform fails at
build time and never ships a run-time panicking stub, the Windows branch of
`flogic` is exactly such a stub: on every input it panics with
"not yet implemented" (`todo!()`) the first time the lock operation is
called, before any native call is attempted. -/
theorem flogic_windows_panics (f : File) (flags : Int) :
    flogic_windows f flags = .panicked "not yet implemented" := rfl

/-- **C6.** The public entry points fail exactly when the controller's
native call fails (negative return), the failure wraps the platform
last-error state uninterpreted, and success carries no value: the API layer
adds no validation, retry, or transformation of the error. -/
theorem api_error_transparent (env : FlockEnv) (f : File) (k : LockType)
    (m : BlockMode) (e : IOError) :
    (lock_file env f k m = .error e ↔
      (env f.raw_fd (Int.lor k.to_flock_flag m.to_flock_flag)).ret < 0 ∧
        e = ⟨(env f.raw_fd (Int.lor k.to_flock_flag m.to_flock_flag)).lastError⟩) ∧
    (unlock_file env f = .error e ↔
      (env f.raw_fd LOCK_UN).ret < 0 ∧
        e = ⟨(env f.raw_fd LOCK_UN).lastError⟩) ∧
    (lock_file env f k m = .ok () ↔
      0 ≤ (env f.raw_fd (Int.lor k.to_flock_flag m.to_flock_flag)).ret) ∧
    (unlock_file env f = .ok () ↔ 0 ≤ (env f.raw_fd LOCK_UN).ret) :=
  ⟨flogic_error_char env f _ e, flogic_error_char env f _ e,
   flogic_ok_char env f _, flogic_ok_char env f _⟩

/-- Witness for `api_error_transparent`: at a concrete failing environment
the error comes out wrapping errno 11, and at a succeeding one `.ok ()`. -/
theorem api_error_transparent_witness :
    lock_file (fun _ _ => ⟨-1, 11⟩ : FlockEnv) ⟨3⟩ .Exclusive .NonBlocking
      = .error ⟨11⟩ ∧
    unlock_file (fun _ _ => ⟨0, 0⟩ : FlockEnv) ⟨3⟩ = .ok () :=
  ⟨((api_error_transparent (fun _ _ => ⟨-1, 11⟩) ⟨3⟩ .Exclusive .NonBlocking
      ⟨11⟩).1).mpr ⟨by decide, rfl⟩,
   ((api_error_transparent (fun _ _ => ⟨0, 0⟩) ⟨3⟩ .Exclusive .NonBlocking
      ⟨11⟩).2.2.2).mpr (by decide)⟩

/-- Helper: the modelled `flock` semantics at the composed
exclusive-non-blocking flag. -/
theorem flockSem_ex_nb (c : Nat) (st : LockState) :
    flockSem c st (Int.lor LOCK_EX LOCK_NB) =
      if noConflictingHolder c st then (⟨0, 0⟩, .exclusive c)
      else (⟨-1, EWOULDBLOCK⟩, st) := by
  unfold flockSem
  rw [if_pos rfl]

/-- Helper: the modelled `flock` semantics at `LOCK_UN`: unconditional
success, dropping the caller's hold. -/
theorem flockSem_unlock (c : Nat) (st : LockState) :
    flockSem c st LOCK_UN = (⟨0, 0⟩, removeHolder c st) := by
  unfold flockSem
  rw [if_neg (by decide), if_neg (by decide), if_neg (by decide),
    if_neg (by decide), if_pos rfl]

/-- **C7.** Lock/unlock round-trip: for every file whose lock state has no
conflicting holder, `lock_file (Exclusive, NonBlocking)` succeeds against
the modelled OS, and the immediately following `unlock_file` against the
resulting lock state succeeds as well. -/
theorem lock_unlock_roundtrip (c : Nat) (f : File) (st : LockState)
    (h : noConflictingHolder c st = true) :
    lock_file (osEnv c st) f .Exclusive .NonBlocking = .ok () ∧
    unlock_file
      (osEnv c (osStep c st
        (Int.lor LockType.Exclusive.to_flock_flag
          BlockMode.NonBlocking.to_flock_flag))) f = .ok () := by
  constructor
  · show flogic (osEnv c st) f
      (Int.lor LockType.Exclusive.to_flock_flag
        BlockMode.NonBlocking.to_flock_flag) = .ok ()
    rw [flogic_ok_char]
    show 0 ≤ ((flockSem c st (Int.lor LOCK_EX LOCK_NB)).1).ret
    rw [flockSem_ex_nb, if_pos h]
  · show flogic
      (osEnv c (osStep c st
        (Int.lor LockType.Exclusive.to_flock_flag
          BlockMode.NonBlocking.to_flock_flag))) f LOCK_UN = .ok ()
    rw [flogic_ok_char]
    show 0 ≤ ((flockSem c
      (osStep c st
        (Int.lor LockType.Exclusive.to_flock_flag
          BlockMode.NonBlocking.to_flock_flag)) LOCK_UN).1).ret
    rw [flockSem_unlock]

/-- Witness for `lock_unlock_roundtrip`: a concrete descriptor starting
from the unlocked state. -/
theorem lock_unlock_roundtrip_witness :
    lock_file (osEnv 0 .unlocked) ⟨3⟩ .Exclusive .NonBlocking = .ok () ∧
    unlock_file
      (osEnv 0 (osStep 0 .unlocked
        (Int.lor LockType.Exclusive.to_flock_flag
          BlockMode.NonBlocking.to_flock_flag))) ⟨3⟩ = .ok () :=
  lock_unlock_roundtrip 0 ⟨3⟩ .unlocked (by decide)

/-- **C8.** The borrowed handle is only read: the result of acquire and
release depends on the handle only through its raw descriptor, and the
native-operation trace of either call is exactly one `flock` call on that
descriptor — never a close or a duplication, and no handle is retained. -/
theorem handle_read_only (env : FlockEnv) (f g : File) (k : LockType)
    (m : BlockMode) (h : f.raw_fd = g.raw_fd) :
    (lock_file env f k m = lock_file env g k m ∧
      unlock_file env f = unlock_file env g) ∧
    lock_fileActions f k m =
      [SysAction.flockCall f.raw_fd (Int.lor k.to_flock_flag m.to_flock_flag)] ∧
    unlock_fileActions f = [SysAction.flockCall f.raw_fd LOCK_UN] ∧
    (∀ a ∈ lock_fileActions f k m, ∀ fd : Int,
      a ≠ .closeFd fd ∧ a ≠ .dupFd fd) ∧
    (∀ a ∈ unlock_fileActions f, ∀ fd : Int,
      a ≠ .closeFd fd ∧ a ≠ .dupFd fd) := by
  obtain ⟨fd⟩ := f
  obtain ⟨fd'⟩ := g
  cases h
  refine ⟨⟨rfl, rfl⟩, rfl, rfl, ?_, ?_⟩ <;>
    · intro a ha fd'
      simp only [lock_fileActions, unlock_fileActions, flogicActions,
        List.mem_singleton] at ha
      subst ha
      exact ⟨by simp, by simp⟩

/-- Witness for `handle_read_only` at a concrete pair of handles sharing
descriptor 3. -/
theorem handle_read_only_witness :
    (lock_file (fun _ _ => ⟨0, 0⟩ : FlockEnv) ⟨3⟩ .Shared .Blocking
        = lock_file (fun _ _ => ⟨0, 0⟩ : FlockEnv) ⟨3⟩ .Shared .Blocking ∧
      unlock_file (fun _ _ => ⟨0, 0⟩ : FlockEnv) ⟨3⟩
        = unlock_file (fun _ _ => ⟨0, 0⟩ : FlockEnv) ⟨3⟩) ∧
    lock_fileActions ⟨3⟩ .Shared .Blocking =
      [SysAction.flockCall 3
        (Int.lor LockType.Shared.to_flock_flag BlockMode.Blocking.to_flock_flag)] ∧
    unlock_fileActions ⟨3⟩ = [SysAction.flockCall 3 LOCK_UN] ∧
    (∀ a ∈ lock_fileActions ⟨3⟩ .Shared .Blocking, ∀ fd : Int,
      a ≠ .closeFd fd ∧ a ≠ .dupFd fd) ∧
    (∀ a ∈ unlock_fileActions ⟨3⟩, ∀ fd : Int,
      a ≠ .closeFd fd ∧ a ≠ .dupFd fd) :=
  handle_read_only (fun _ _ => ⟨0, 0⟩) ⟨3⟩ ⟨3⟩ .Shared .Blocking rfl

/-- **C9.** The flag constants are the distinct single bits 1, 2, 4, 8;
every acquisition flag is one of `LOCK_SH`, `LOCK_EX`, `LOCK_SH|LOCK_NB`,
`LOCK_EX|LOCK_NB`, contains exactly the kind bit matching the requested
kind and never the unlock bit; the release flag `LOCK_UN` contains no kind
or non-blocking bit; and the map from (kind, mode) to composed flag is
injective. -/
theorem flag_space :
    (LOCK_SH = 1 ∧ LOCK_EX = 2 ∧ LOCK_NB = 4 ∧ LOCK_UN = 8) ∧
    (∀ k : LockType, ∀ m : BlockMode,
      (Int.lor k.to_flock_flag m.to_flock_flag = LOCK_SH ∨
        Int.lor k.to_flock_flag m.to_flock_flag = LOCK_EX ∨
        Int.lor k.to_flock_flag m.to_flock_flag = Int.lor LOCK_SH LOCK_NB ∨
        Int.lor k.to_flock_flag m.to_flock_flag = Int.lor LOCK_EX LOCK_NB) ∧
      Int.land (Int.lor k.to_flock_flag m.to_flock_flag) LOCK_UN = 0 ∧
      (¬ Int.land (Int.lor k.to_flock_flag m.to_flock_flag) LOCK_EX = 0 ↔
        k = .Exclusive) ∧
      (¬ Int.land (Int.lor k.to_flock_flag m.to_flock_flag) LOCK_SH = 0 ↔
        k = .Shared)) ∧
    (Int.land LOCK_UN (Int.lor LOCK_SH LOCK_EX) = 0 ∧
      Int.land LOCK_UN LOCK_NB = 0) ∧
    (∀ k k' : LockType, ∀ m m' : BlockMode,
      Int.lor k.to_flock_flag m.to_flock_flag =
        Int.lor k'.to_flock_flag m'.to_flock_flag → k = k' ∧ m = m') := by
  decide

/-- Witness for `flag_space`: its injectivity component applied at a
concrete coincidence of composed flags. -/
theorem flag_space_witness :
    LockType.Exclusive = LockType.Exclusive ∧
    BlockMode.NonBlocking = BlockMode.NonBlocking :=
  flag_space.2.2.2 .Exclusive .Exclusive .NonBlocking .NonBlocking rfl

/-- **C10.** Determinism: two runs against the same raw descriptor, the
same flag value and the same native-call outcome produce identical results,
for the controller and for both public entry points — the code introduces
no nondeterminism of its own. -/
theorem runs_deterministic (env env' : FlockEnv) (f f' : File)
    (h : f.raw_fd = f'.raw_fd) :
    (∀ flags : Int, env f.raw_fd flags = env' f'.raw_fd flags →
      flogic env f flags = flogic env' f' flags) ∧
    (∀ k : LockType, ∀ m : BlockMode,
      env f.raw_fd (Int.lor k.to_flock_flag m.to_flock_flag) =
        env' f'.raw_fd (Int.lor k.to_flock_flag m.to_flock_flag) →
      lock_file env f k m = lock_file env' f' k m) ∧
    (env f.raw_fd LOCK_UN = env' f'.raw_fd LOCK_UN →
      unlock_file env f = unlock_file env' f') := by
  refine ⟨?_, ?_, ?_⟩
  · intro flags he
    unfold flogic
    rw [he]
  · intro k m he
    unfold lock_file flogic
    rw [he]
  · intro he
    unfold unlock_file flogic
    rw [he]

/-- Witness for `runs_deterministic`: two distinct environment terms that
agree at descriptor 3 drive `unlock_file` to the same result. -/
theorem runs_deterministic_witness :
    unlock_file (fun _ flags => ⟨0, flags⟩ : FlockEnv) ⟨3⟩ =
      unlock_file (fun _ _ => ⟨0, LOCK_UN⟩ : FlockEnv) ⟨3⟩ :=
  (runs_deterministic (fun _ flags => ⟨0, flags⟩) (fun _ _ => ⟨0, LOCK_UN⟩)
    ⟨3⟩ ⟨3⟩ rfl).2.2 rfl

end Flack
